import Mathlib

/-!
Verification of the resilient data-access and caching layer of the
`Microservicio_reportes_analisis` reporting service.

The Lean definitions below are a shallow embedding of the Python sources:

* `src/services/database_manager.py` — `DatabaseManager` with its circuit
  breaker (`_handle_failure`, `_check_circuit_breaker`, `get_connection`).
* `src/services/cache_manager.py` — `CacheManager` (`get`, `set`,
  `_handle_failure`, `_generate_cache_key`).
* `src/services/report_service.py` — `ReportService` (`_get_date_range`,
  `get_sales_report`, `get_products_report`, `get_customers_report`,
  `get_revenue_by_category`, `get_summary_dashboard`, `generate_report`).
* `src/models.py` — the enums and Pydantic payload models.

Wall-clock time (`time.time()`) is modelled as an `Int` passed explicitly to
every operation that reads the clock; Python `float` money amounts are
modelled as `ℚ`; Python `int` counters as `Int`; fallible code returns
`Except String` / `Option`.
-/

/-! ### DatabaseManager (src/services/database_manager.py)

The mutable breaker state of a `DatabaseManager` instance.  The connection
pool itself and its metrics counters `queries_executed` / `slow_queries` are
irrelevant to the breaker claims and are omitted; `errors` is kept because
`_handle_failure` updates it.  The outcome of the storage engine
(connection + query body succeeding or raising) is passed in as the
`engineOk : Bool` argument of `get_connection`.
-/

structure DBState where
  circuit_open : Bool
  failure_count : Int
  failure_threshold : Int
  circuit_timeout : Int
  last_failure_time : Option Int
  errors : Int
deriving DecidableEq, Repr

namespace DatabaseManager

/-- Fresh manager state as set up by `DatabaseManager.__init__` (lines 52-62):
breaker closed, zero failures, no failure timestamp. -/
def init (threshold timeout : Int) : DBState :=
  { circuit_open := false
    failure_count := 0
    failure_threshold := threshold
    circuit_timeout := timeout
    last_failure_time := none
    errors := 0 }

/-- Embedding of `DatabaseManager._handle_failure` (lines 145-153): increment
`failure_count`, stamp `last_failure_time` with the current clock, bump
`errors`, and open the breaker once `failure_count >= failure_threshold`. -/
def handle_failure (now : Int) (st : DBState) : DBState :=
  let st1 := { st with
    failure_count := st.failure_count + 1
    last_failure_time := some now
    errors := st.errors + 1 }
  if st1.failure_count ≥ st1.failure_threshold then
    { st1 with circuit_open := true }
  else
    st1

/-- Embedding of `DatabaseManager._check_circuit_breaker` (lines 155-164):
when the breaker is open and more than `circuit_timeout` seconds have passed
since `last_failure_time`, close it and reset `failure_count` to zero.
(`if self.last_failure_time` is Python truthiness on an `Optional[float]`,
modelled by the `Option` match.) -/
def check_circuit_breaker (now : Int) (st : DBState) : DBState :=
  if st.circuit_open = false then
    st
  else
    match st.last_failure_time with
    | some t =>
        if now - t > st.circuit_timeout then
          { st with circuit_open := false, failure_count := 0 }
        else
          st
    | none => st

/-- What a `get_connection` call can do, seen from its caller:
`circuitOpenError` models raising `CircuitBreakerError`, `runtimeError`
models re-raising an engine failure as `RuntimeError`, `ok` is the success
path. -/
inductive ConnOutcome where
  | circuitOpenError
  | runtimeError
  | ok
deriving DecidableEq, Repr

/-- Result of one `get_connection` call: the outcome, whether control
reached the connection-acquisition line (`touched_engine`, false exactly
when `CircuitBreakerError` is raised before any engine contact), and the
state afterwards. -/
structure ConnResult where
  outcome : ConnOutcome
  touched_engine : Bool
  state : DBState
deriving DecidableEq, Repr

/-- Embedding of `DatabaseManager.get_connection` (lines 166-212): first run
`_check_circuit_breaker`; if the breaker is (still) open, raise
`CircuitBreakerError` without acquiring a connection; otherwise acquire a
connection and run the body (`engineOk` tells whether connection + body
succeed).  On success, decrement a positive `failure_count` by one (clamped
at zero); on an engine error, run `_handle_failure` and re-raise as
`RuntimeError`.  `execute_query` / `execute_update` funnel every call
through this context manager, so their breaker behaviour is this
function's. -/
def get_connection (now : Int) (engineOk : Bool) (st : DBState) : ConnResult :=
  let st1 := check_circuit_breaker now st
  if st1.circuit_open then
    { outcome := .circuitOpenError, touched_engine := false, state := st1 }
  else if engineOk then
    { outcome := .ok
      touched_engine := true
      state := { st1 with
        failure_count :=
          if st1.failure_count > 0 then max 0 (st1.failure_count - 1)
          else st1.failure_count } }
  else
    { outcome := .runtimeError, touched_engine := true, state := handle_failure now st1 }

/-- A burst of consecutive failed operations at the given timestamps:
`_handle_failure` runs once per failure, in order. -/
def apply_failures (ts : List Int) (st : DBState) : DBState :=
  ts.foldl (fun s t => handle_failure t s) st

/-- One observable event at a `DatabaseManager`: a `get_connection` call at
clock `now` whose engine interaction succeeds or fails.  Used to state the
`failure_count` invariant over arbitrary histories. -/
inductive DBEvent where
  | call (now : Int) (engineOk : Bool)
deriving DecidableEq, Repr

/-- Run a history of calls, keeping only the evolving state. -/
def run_events (evs : List DBEvent) (st : DBState) : DBState :=
  evs.foldl (fun s e => match e with | .call now ok => (get_connection now ok s).state) st

end DatabaseManager

/-! ### CacheManager (src/services/cache_manager.py)

The cache tier state.  The remote Redis store is external to the process:
the behaviour of a single Redis round trip is passed in as an argument
(`RemoteGet` for `get`, `RemoteSet` for `set`/`setex`).  `has_redis` models
`self.redis_client is not None`; the value type `V` stands for the
JSON-serializable Python values held by the cache (a found remote value is
passed in already deserialized, as `json.loads` returns it).  The local
in-process map `memory_cache` is an association list with dict semantics.
-/

structure CacheState (V : Type) where
  enabled : Bool
  has_redis : Bool
  circuit_open : Bool
  failure_count : Int
  failure_threshold : Int
  memory_cache : List (String × V)
  hits : Int
  misses : Int
  sets : Int
deriving DecidableEq, Repr

namespace CacheManager

variable {V : Type}

/-- Lookup in the local dict: `key in self.memory_cache` /
`self.memory_cache[key]`. -/
def lookup_mem (m : List (String × V)) (key : String) : Option V :=
  (m.find? (fun p => p.1 == key)).map Prod.snd

/-- Assignment into the local dict: `self.memory_cache[key] = value`. -/
def insert_mem (m : List (String × V)) (key : String) (v : V) : List (String × V) :=
  m.filter (fun p => !(p.1 == key)) ++ [(key, v)]

/-- Embedding of `CacheManager._handle_failure` (lines 74-79): bump the
failure counter and open the cache breaker at the threshold. -/
def handle_failure (st : CacheState V) : CacheState V :=
  let st1 := { st with failure_count := st.failure_count + 1 }
  if st1.failure_count ≥ st1.failure_threshold then
    { st1 with circuit_open := true }
  else
    st1

/-- One remote `redis.get` round trip, as seen by `CacheManager.get`:
a truthy value (already deserialized), a miss (`None`/falsy), or a
`RedisError`. -/
inductive RemoteGet (V : Type) where
  | found (v : V)
  | missing
  | error
deriving DecidableEq, Repr

/-- The local-map fallback block at the end of `CacheManager.get`
(lines 126-134): hit in `memory_cache` or a counted miss. -/
def memory_get (st : CacheState V) (key : String) : Option V × CacheState V :=
  match lookup_mem st.memory_cache key with
  | some v => (some v, { st with hits := st.hits + 1 })
  | none => (none, { st with misses := st.misses + 1 })

/-- Embedding of `CacheManager.get` (lines 97-134).  Disabled caches return
`None`.  When a Redis client exists and the cache breaker is closed, the
remote store is consulted first: a truthy value is a hit, a falsy reply is
counted as a miss and returned as `None` (without consulting the local
map), and a `RedisError` runs `_handle_failure` and falls through to the
local map.  Without a usable client the local map is consulted directly.
The function is total: cache trouble is absorbed, never raised. -/
def get (st : CacheState V) (key : String) (remote : RemoteGet V) : Option V × CacheState V :=
  if st.enabled = false then
    (none, st)
  else if st.has_redis && !st.circuit_open then
    match remote with
    | .found v => (some v, { st with hits := st.hits + 1 })
    | .missing => (none, { st with misses := st.misses + 1 })
    | .error => memory_get (handle_failure st) key
  else
    memory_get st key

/-- One remote `redis.setex` round trip, as seen by `CacheManager.set`:
success, or a raised `RedisError`/`TypeError` (serialization failure). -/
inductive RemoteSet where
  | ok
  | error
deriving DecidableEq, Repr

/-- Embedding of `CacheManager.set` (lines 136-173).  Disabled caches
return `False`.  When a Redis client exists and the breaker is closed, the
value is written remotely with the TTL (`ttl or self.default_ttl`); on
success the call returns `True` without touching the local map.  A remote
error runs `_handle_failure` and falls through.  The fallback path writes
the value into the local map (no TTL) and returns `True`.  The `ttl`
argument only parameterizes the remote write, so it does not appear in the
resulting state. -/
def set (st : CacheState V) (key : String) (v : V) (ttl : Option Int) (remote : RemoteSet) :
    Bool × CacheState V :=
  if st.enabled = false then
    (false, st)
  else if st.has_redis && !st.circuit_open then
    match remote with
    | .ok => (true, { st with sets := st.sets + 1 })
    | .error =>
        let st1 := handle_failure st
        (true, { st1 with
          memory_cache := insert_mem st1.memory_cache key v
          sets := st1.sets + 1 })
  else
    (true, { st with
      memory_cache := insert_mem st.memory_cache key v
      sets := st.sets + 1 })

end CacheManager

/-! ### Cache key derivation (`CacheManager._generate_cache_key`, lines 81-95)

`_generate_cache_key` runs `json.dumps(kwargs, sort_keys=True)` over the
keyword arguments, hashes the UTF-8 bytes of that canonical string with MD5,
and appends the first 8 hex characters of the digest to the prefix.  The
embedding reproduces that pipeline bit-for-bit: Python keyword arguments are
a dict with distinct attribute names, modelled as an association list with
pairwise-distinct keys; `sort_keys=True` orders entries by code-point
comparison of the keys; `json.dumps` (default `ensure_ascii=True`)
serializes values and escapes strings; MD5 is implemented over byte lists
with `Nat` arithmetic modulo `2^32`.

A Python value that can appear as a keyword argument here: the call sites
pass strings, `None`, ints and `datetime.date` objects; `json.dumps` raises
`TypeError` on a `date`, which the embedding reports as `Except.error`.
-/

inductive PyValue where
  | str (s : String)
  | null
  | int (n : Int)
  | date (d : Int)
deriving DecidableEq, Repr

/-- Code-point comparison of character lists: Python's `str` ordering. -/
def charListLe : List Char → List Char → Bool
  | [], _ => true
  | _ :: _, [] => false
  | a :: as, b :: bs =>
    if a.toNat < b.toNat then true
    else if b.toNat < a.toNat then false
    else charListLe as bs

/-- Python string comparison `a <= b` (lexicographic on code points). -/
def pyStrLe (a b : String) : Bool := charListLe a.data b.data

/-- Lowercase hex digit. -/
def hexChar (n : Nat) : Char :=
  if n < 10 then Char.ofNat (48 + n) else Char.ofNat (87 + n)

/-- Hexadecimal rendering of a byte string, two lowercase digits per byte:
`hashlib`'s `hexdigest`. -/
def hexOfBytes : List Nat → List Char
  | [] => []
  | b :: bs => hexChar (b / 16) :: hexChar (b % 16) :: hexOfBytes bs

/-- The 64 MD5 round constants `K[i] = floor(2^32 * |sin(i + 1)|)`. -/
def md5K : List Nat :=
  [3614090360, 3905402710, 606105819, 3250441966, 4118548399, 1200080426, 2821735955, 4249261313,
   1770035416, 2336552879, 4294925233, 2304563134, 1804603682, 4254626195, 2792965006, 1236535329,
   4129170786, 3225465664, 643717713, 3921069994, 3593408605, 38016083, 3634488961, 3889429448,
   568446438, 3275163606, 4107603335, 1163531501, 2850285829, 4243563512, 1735328473, 2368359562,
   4294588738, 2272392833, 1839030562, 4259657740, 2763975236, 1272893353, 4139469664, 3200236656,
   681279174, 3936430074, 3572445317, 76029189, 3654602809, 3873151461, 530742520, 3299628645,
   4096336452, 1126891415, 2878612391, 4237533241, 1700485571, 2399980690, 4293915773, 2240044497,
   1873313359, 4264355552, 2734768916, 1309151649, 4149444226, 3174756917, 718787259, 3951481745]

/-- The 64 MD5 per-round left-rotation amounts. -/
def md5S : List Nat :=
  [7, 12, 17, 22, 7, 12, 17, 22, 7, 12, 17, 22, 7, 12, 17, 22,
   5, 9, 14, 20, 5, 9, 14, 20, 5, 9, 14, 20, 5, 9, 14, 20,
   4, 11, 16, 23, 4, 11, 16, 23, 4, 11, 16, 23, 4, 11, 16, 23,
   6, 10, 15, 21, 6, 10, 15, 21, 6, 10, 15, 21, 6, 10, 15, 21]

/-- Left rotation of a 32-bit word (input below `2^32`). -/
def rotl32 (x s : Nat) : Nat := (x % 2 ^ (32 - s)) * 2 ^ s + x / 2 ^ (32 - s)

/-- Bitwise complement of a 32-bit word. -/
def md5not (x : Nat) : Nat := 4294967295 - x

/-- Little-endian 32-bit word `j` of a 64-byte block. -/
def md5word (block : List Nat) (j : Nat) : Nat :=
  block.getD (4 * j) 0 + 256 * block.getD (4 * j + 1) 0 +
    65536 * block.getD (4 * j + 2) 0 + 16777216 * block.getD (4 * j + 3) 0

/-- One of the 64 MD5 rounds. -/
def md5Step (block : List Nat) (st : Nat × Nat × Nat × Nat) (i : Nat) : Nat × Nat × Nat × Nat :=
  let (a, b, c, d) := st
  let f :=
    if i < 16 then (b &&& c) ||| (md5not b &&& d)
    else if i < 32 then (d &&& b) ||| (md5not d &&& c)
    else if i < 48 then b ^^^ c ^^^ d
    else c ^^^ (b ||| md5not d)
  let g :=
    if i < 16 then i
    else if i < 32 then (5 * i + 1) % 16
    else if i < 48 then (3 * i + 5) % 16
    else (7 * i) % 16
  let tmp := (f + a + md5K.getD i 0 + md5word block g) % 4294967296
  (d, (b + rotl32 tmp (md5S.getD i 0)) % 4294967296, b, c)

/-- MD5 compression of one 64-byte block into the running state. -/
def md5ProcessBlock (st : Nat × Nat × Nat × Nat) (block : List Nat) : Nat × Nat × Nat × Nat :=
  let (a0, b0, c0, d0) := st
  let (a, b, c, d) := (List.range 64).foldl (md5Step block) st
  ((a0 + a) % 4294967296, (b0 + b) % 4294967296, (c0 + c) % 4294967296, (d0 + d) % 4294967296)

/-- Little-endian serialization of a 32-bit word to 4 bytes. -/
def le4 (n : Nat) : List Nat :=
  [n % 256, n / 256 % 256, n / 65536 % 256, n / 16777216 % 256]

/-- Little-endian serialization of a 64-bit word to 8 bytes. -/
def le8 (n : Nat) : List Nat :=
  [n % 256, n / 256 % 256, n / 65536 % 256, n / 16777216 % 256,
   n / 4294967296 % 256, n / 1099511627776 % 256, n / 281474976710656 % 256,
   n / 72057594037927936 % 256]

/-- MD5 padding: a `0x80` byte, zeros up to 56 mod 64, then the bit length
as a little-endian 64-bit word. -/
def md5Pad (msg : List Nat) : List Nat :=
  msg ++ [128] ++ List.replicate ((119 - msg.length % 64) % 64) 0 ++
    le8 ((msg.length * 8) % 18446744073709551616)

/-- Split a byte list into 64-byte blocks; the fuel argument (instantiated
with the list length, which one step always strictly decreases on a
nonempty list) keeps the recursion structural. -/
def toBlocksAux : Nat → List Nat → List (List Nat)
  | 0, _ => []
  | _ + 1, [] => []
  | fuel + 1, l => l.take 64 :: toBlocksAux fuel (l.drop 64)

/-- The MD5 digest (16 bytes) of a byte string: `hashlib.md5(...).digest()`. -/
def md5 (msg : List Nat) : List Nat :=
  let padded := md5Pad msg
  let st :=
    (toBlocksAux padded.length padded).foldl md5ProcessBlock
      (1732584193, 4023233417, 2562383102, 271733878)
  le4 st.1 ++ le4 st.2.1 ++ le4 st.2.2.1 ++ le4 st.2.2.2

/-- UTF-8 encoding of a character list: Python's `str.encode()`. -/
def utf8Bytes : List Char → List Nat
  | [] => []
  | c :: cs =>
    (if c.toNat < 128 then [c.toNat]
     else if c.toNat < 2048 then [192 + c.toNat / 64, 128 + c.toNat % 64]
     else if c.toNat < 65536 then
       [224 + c.toNat / 4096, 128 + c.toNat / 64 % 64, 128 + c.toNat % 64]
     else
       [240 + c.toNat / 262144, 128 + c.toNat / 4096 % 64,
        128 + c.toNat / 64 % 64, 128 + c.toNat % 64]) ++ utf8Bytes cs

/-- Upper-case-free 4-digit hex rendering used inside JSON escapes. -/
def hex4 (n : Nat) : List Char :=
  [hexChar (n / 4096 % 16), hexChar (n / 256 % 16), hexChar (n / 16 % 16), hexChar (n % 16)]

/-- JSON string escaping of one character, as `json.dumps` does with its
default `ensure_ascii=True`: quote and backslash escapes, short escapes for
the usual control characters, numeric escapes for the remaining control
characters and for everything outside printable ASCII (with UTF-16
surrogate pairs above the basic plane). -/
def jsonEscChar (c : Char) : List Char :=
  if c = '"' then ['\\', '"']
  else if c = '\\' then ['\\', '\\']
  else if c = '\n' then ['\\', 'n']
  else if c = '\t' then ['\\', 't']
  else if c = '\r' then ['\\', 'r']
  else if c.toNat = 8 then ['\\', 'b']
  else if c.toNat = 12 then ['\\', 'f']
  else if 32 ≤ c.toNat && c.toNat ≤ 126 then [c]
  else if c.toNat < 65536 then '\\' :: 'u' :: hex4 c.toNat
  else ('\\' :: 'u' :: hex4 (55296 + (c.toNat - 65536) / 1024)) ++
       ('\\' :: 'u' :: hex4 (56320 + (c.toNat - 65536) % 1024))

/-- JSON string escaping of a character list. -/
def jsonEscape : List Char → List Char
  | [] => []
  | c :: cs => jsonEscChar c ++ jsonEscape cs

/-- A JSON string literal: escaped content between double quotes. -/
def jsonStr (s : String) : String :=
  String.mk ('"' :: jsonEscape s.data ++ ['"'])

/-- JSON serialization of one value.  `json.dumps` raises `TypeError` on a
`datetime.date`, reported here as `Except.error`. -/
def dumpValue : PyValue → Except String String
  | .str s => .ok (jsonStr s)
  | .null => .ok "null"
  | .int n => .ok (toString n)
  | .date _ => .error "Object of type date is not JSON serializable"

/-- Serialize already-ordered dict items with `json.dumps`'s default
separators `", "` and `": "`. -/
def dumpItems : List (String × PyValue) → Except String (List String)
  | [] => .ok []
  | (k, v) :: rest =>
    match dumpValue v, dumpItems rest with
    | .ok vs, .ok restS => .ok ((jsonStr k ++ ": " ++ vs) :: restS)
    | .error e, _ => .error e
    | _, .error e => .error e

/-- Ordering of dict entries by key, as `sort_keys=True` orders them. -/
def pyKeyLe (a b : String × PyValue) : Prop := pyStrLe a.1 b.1 = true

instance : DecidableRel pyKeyLe := fun _ _ => inferInstanceAs (Decidable (_ = true))

/-- Stable sort of the dict entries by key (Python's `sorted` is stable;
keyword-argument keys are pairwise distinct anyway). -/
def sortPairs (kwargs : List (String × PyValue)) : List (String × PyValue) :=
  List.insertionSort pyKeyLe kwargs

/-- Embedding of `json.dumps(kwargs, sort_keys=True)`: entries sorted by
key, rendered as a JSON object. -/
def json_dumps_sorted (kwargs : List (String × PyValue)) : Except String String :=
  match dumpItems (sortPairs kwargs) with
  | .ok items => .ok ("\x7b" ++ String.intercalate ", " items ++ "\x7d")
  | .error e => .error e

namespace CacheManager

/-- Embedding of `CacheManager._generate_cache_key` (lines 81-95): the
prefix, a colon, and the first 8 hex characters of the MD5 digest of the
canonicalized parameters. -/
def generate_cache_key (pre : String) (kwargs : List (String × PyValue)) : Except String String :=
  match json_dumps_sorted kwargs with
  | .ok params_str =>
      .ok (pre ++ ":" ++ String.mk ((hexOfBytes (md5 (utf8Bytes params_str.data))).take 8))
  | .error e => .error e

end CacheManager

/-! ### Models (src/models.py)

Dates are modelled as `Int` day numbers (the code only builds dates with
`datetime.now().date()` and `timedelta(days=k)` offsets, so day arithmetic
is faithful); money (`float`) as `ℚ`; Python `int` as `Int`.
-/

/-- `ReportPeriod` (models.py lines 13-20). -/
inductive ReportPeriod where
  | day
  | week
  | month
  | quarter
  | year
  | custom
deriving DecidableEq, Repr

/-- The wire value of a `ReportPeriod` member. -/
def ReportPeriod.value : ReportPeriod → String
  | .day => "dia"
  | .week => "semana"
  | .month => "mes"
  | .quarter => "trimestre"
  | .year => "año"
  | .custom => "personalizado"

/-- `ReportType` (models.py lines 31-38), including `HOURLY_SALES`. -/
inductive ReportType where
  | sales
  | products
  | customers
  | revenue_by_category
  | hourly_sales
  | summary
deriving DecidableEq, Repr

/-- The wire value of a `ReportType` member. -/
def ReportType.value : ReportType → String
  | .sales => "ventas"
  | .products => "productos"
  | .customers => "clientes"
  | .revenue_by_category => "revenue_categoria"
  | .hourly_sales => "ventas_horarias"
  | .summary => "resumen"

/-- A validated `ReportRequest` (models.py lines 94-111) restricted to the
fields the report functions read: `report_type`, `period` and the optional
explicit `date_range` (a start/end pair of day numbers; `DateRangeFilter`
validation guarantees start ≤ end).  `filters`, `pagination`, `format` and
`include_charts` are never consulted by `get_sales_report` /
`get_products_report` / `get_customers_report` / `get_revenue_by_category` /
`get_summary_dashboard` and are omitted. -/
structure ReportRequest where
  report_type : ReportType
  period : ReportPeriod
  date_range : Option (Int × Int)
deriving DecidableEq, Repr

/-- `SalesReportItem` (models.py lines 116-131). -/
structure SalesReportItem where
  periodo : String
  total_ventas : ℚ
  numero_pedidos : Int
  ticket_promedio : ℚ
deriving DecidableEq, Repr

/-- `SalesReport` (models.py lines 134-139). -/
structure SalesReport where
  data : List SalesReportItem
  total_revenue : ℚ
  total_orders : Int
  average_ticket : ℚ
deriving DecidableEq, Repr

/-- `ProductReportItem` (models.py lines 144-163). -/
structure ProductReportItem where
  producto_id : Int
  nombre : String
  categoria : String
  total_vendido : Int
  revenue : ℚ
  porcentaje_ventas : ℚ
deriving DecidableEq, Repr

/-- `ProductsReport` (models.py lines 166-170). -/
structure ProductsReport where
  data : List ProductReportItem
  total_products : Int
  total_units_sold : Int
deriving DecidableEq, Repr

/-- `CustomerReportItem` (models.py lines 175-196). -/
structure CustomerReportItem where
  cliente_id : Int
  username : String
  nombre_completo : String
  cantidad_pedidos : Int
  total_gastado : ℚ
  ticket_promedio : ℚ
  ultimo_pedido : Option String
deriving DecidableEq, Repr

/-- `CustomersReport` (models.py lines 199-202). -/
structure CustomersReport where
  data : List CustomerReportItem
  total_customers : Int
deriving DecidableEq, Repr

/-- `RevenueByCategoryItem` (models.py lines 207-212). -/
structure RevenueByCategoryItem where
  categoria : String
  revenue : ℚ
  porcentaje : ℚ
  unidades_vendidas : Int
deriving DecidableEq, Repr

/-- `RevenueByCategoryReport` (models.py lines 215-218). -/
structure RevenueByCategoryReport where
  data : List RevenueByCategoryItem
  total_revenue : ℚ
deriving DecidableEq, Repr

/-- `HourlySalesItem` (models.py lines 223-227): declared in the model
module for the `ventas_horarias` report type. -/
structure HourlySalesItem where
  hora : Int
  total_ventas : ℚ
  numero_pedidos : Int
deriving DecidableEq, Repr

/-- `HourlySalesReport` (models.py lines 230-234): the payload model
declared for `ReportType.HOURLY_SALES`; no code in `ReportService` ever
constructs it. -/
structure HourlySalesReport where
  data : List HourlySalesItem
  peak_hour : Int
  peak_revenue : ℚ
deriving DecidableEq, Repr

/-- `SummaryMetrics` (models.py lines 239-246). -/
structure SummaryMetrics where
  total_revenue_today : ℚ
  total_orders_today : Int
  average_ticket_today : ℚ
  total_customers : Int
  top_product_today : Option String
  revenue_growth_vs_yesterday : ℚ
deriving DecidableEq, Repr

/-! ### ReportService (src/services/report_service.py)

The report functions read rows from the database and the cache through the
two managers; a call's external interactions are passed in through a
`ReportsEnv` (what the cache lookup returns for a key, which rows the query
yields, the measured wall-clock duration), and every cache interaction the
call performs is returned as a `CacheOp` trace, so that cache-protocol
claims can be stated about it.  Query failures simply re-raise in the
source (`except Exception ... raise`), so the embeddings describe the
successful-query paths plus the error paths the functions themselves
introduce (cache-key `TypeError`, date-range `ValueError`).
-/

/-- Python's `round(x, 2)` on ideal reals: round half to even at two
decimal places. -/
def round_half_even (x : ℚ) : Int :=
  let f := ⌊x⌋
  let r := x - (f : ℚ)
  if r < 1 / 2 then f
  else if 1 / 2 < r then f + 1
  else if f % 2 = 0 then f else f + 1

/-- `round(x, 2)`. -/
def round2 (x : ℚ) : ℚ := (round_half_even (x * 100) : ℚ) / 100

namespace ReportService

/-- Embedding of `ReportService._get_date_range` (lines 42-83), with
`today` passed in for `datetime.now().date()`.  A custom period without
both bounds raises `ValueError` (the `Except.error`); the source's trailing
`else` branch (default to week) is unreachable because the enum cases above
it are exhaustive. -/
def get_date_range (today : Int) (period : ReportPeriod)
    (start_date end_date : Option Int) : Except String (Int × Int) :=
  match period with
  | .custom =>
    match start_date, end_date with
    | some s, some e => .ok (s, e)
    | _, _ => .error "start_date y end_date son requeridos para periodo personalizado"
  | .day => .ok (today, today)
  | .week => .ok (today - 7, today)
  | .month => .ok (today - 30, today)
  | .quarter => .ok (today - 90, today)
  | .year => .ok (today - 365, today)

/-- One raw row of the sales query (lines 198-210): date label, `SUM(total)`,
`COUNT(*)`, `AVG(total)`. -/
structure SalesRow where
  periodo : String
  total_ventas : ℚ
  numero_pedidos : Int
  ticket_promedio : ℚ
deriving DecidableEq, Repr

/-- The aggregation step of `get_sales_report` (lines 215-236): map rows to
items, then `total_revenue` and `total_orders` are the sums over the items
and `average_ticket` is their quotient when any order exists, else `0.0`. -/
def mk_sales_report (rows : List SalesRow) : SalesReport :=
  let items := rows.map (fun r =>
    SalesReportItem.mk r.periodo r.total_ventas r.numero_pedidos r.ticket_promedio)
  let total_revenue : ℚ := (items.map (fun i => i.total_ventas)).sum
  let total_orders : Int := (items.map (fun i => i.numero_pedidos)).sum
  let average_ticket : ℚ := if total_orders > 0 then total_revenue / (total_orders : ℚ) else 0
  { data := items
    total_revenue := total_revenue
    total_orders := total_orders
    average_ticket := average_ticket }

/-- One raw row of the products query (lines 275-292). -/
structure ProductRow where
  producto_id : Int
  nombre : String
  categoria : String
  total_vendido : Int
  revenue : ℚ
deriving DecidableEq, Repr

/-- The aggregation step of `get_products_report` (lines 297-316):
percentage of total revenue per row (rounded to 2 decimals, `0.0` when the
total is not positive), plus row count and unit total. -/
def mk_products_report (rows : List ProductRow) : ProductsReport :=
  let total_revenue := (rows.map (fun r => r.revenue)).sum
  let items := rows.map (fun r =>
    ProductReportItem.mk r.producto_id r.nombre r.categoria r.total_vendido r.revenue
      (if total_revenue > 0 then round2 (r.revenue / total_revenue * 100) else 0))
  { data := items
    total_products := (items.length : Int)
    total_units_sold := (items.map (fun i => i.total_vendido)).sum }

/-- One raw row of the customers query (lines 350-365). -/
structure CustomerRow where
  cliente_id : Int
  username : String
  nombre_completo : String
  cantidad_pedidos : Int
  total_gastado : ℚ
  ticket_promedio : ℚ
  ultimo_pedido : Option String
deriving DecidableEq, Repr

/-- The mapping step of `get_customers_report` (lines 370-386): fall back
to the username when the full name is blank, keep the first 10 characters
of the last-order timestamp when present. -/
def mk_customers_report (rows : List CustomerRow) : CustomersReport :=
  let items := rows.map (fun r =>
    CustomerReportItem.mk r.cliente_id r.username
      (if r.nombre_completo.trim = "" then r.username else r.nombre_completo)
      r.cantidad_pedidos r.total_gastado r.ticket_promedio
      (r.ultimo_pedido.map (fun s => s.take 10)))
  { data := items, total_customers := (items.length : Int) }

/-- One raw row of the revenue-by-category query (lines 418-432). -/
structure CategoryRow where
  categoria : String
  revenue : ℚ
  unidades_vendidas : Int
deriving DecidableEq, Repr

/-- The aggregation step of `get_revenue_by_category` (lines 437-452). -/
def mk_revenue_by_category_report (rows : List CategoryRow) : RevenueByCategoryReport :=
  let total_revenue := (rows.map (fun r => r.revenue)).sum
  let items := rows.map (fun r =>
    RevenueByCategoryItem.mk r.categoria r.revenue
      (if total_revenue > 0 then round2 (r.revenue / total_revenue * 100) else 0)
      r.unidades_vendidas)
  { data := items, total_revenue := total_revenue }

/-- The raw aggregates read by `get_summary_dashboard` (lines 511-515):
each `fetch_one` yields no row or one row whose SQL aggregates may be NULL
(`or 0` defaulting in the source). -/
structure SummaryInput where
  today_row : Option (Option Int × Option ℚ × Option ℚ)
  yesterday_row : Option (Option ℚ)
  top_product_row : Option String
  customers_row : Option (Option Int)
deriving DecidableEq, Repr

/-- The computation step of `get_summary_dashboard` (lines 517-531):
NULL-or-missing aggregates default to zero; the growth percentage against
yesterday is rounded to 2 decimals and `0.0` when yesterday had no
revenue. -/
def mk_summary_metrics (i : SummaryInput) : SummaryMetrics :=
  let today_revenue : ℚ := match i.today_row with
    | some (_, r, _) => r.getD 0
    | none => 0
  let yesterday_revenue : ℚ := match i.yesterday_row with
    | some r => r.getD 0
    | none => 0
  let growth : ℚ :=
    if yesterday_revenue > 0 then
      round2 ((today_revenue - yesterday_revenue) / yesterday_revenue * 100)
    else 0
  { total_revenue_today := today_revenue
    total_orders_today := match i.today_row with
      | some (o, _, _) => o.getD 0
      | none => 0
    average_ticket_today := match i.today_row with
      | some (_, _, a) => a.getD 0
      | none => 0
    total_customers := match i.customers_row with
      | some c => c.getD 0
      | none => 0
    top_product_today := i.top_product_row
    revenue_growth_vs_yesterday := growth }

/-- The report-type-specific payload inside a result dict. -/
inductive ReportData where
  | sales (r : SalesReport)
  | products (r : ProductsReport)
  | customers (r : CustomersReport)
  | categories (r : RevenueByCategoryReport)
  | summary (r : SummaryMetrics)
deriving DecidableEq, Repr

/-- The result dict a report function returns: `report_type`, `period`
(absent for the summary dashboard), `data`, `cached`, and
`execution_time_ms` (absent for revenue-by-category and summary, which do
not time themselves). -/
structure Envelope where
  report_type : String
  period : Option String
  data : ReportData
  cached : Bool
  execution_time_ms : Option ℚ
deriving DecidableEq, Repr

/-- One interaction with the `CacheManager` performed by a report call. -/
inductive CacheOp where
  | get (key : String)
  | set (key : String) (ttl : Int)
deriving DecidableEq, Repr

/-- The external world of one report call: what `cache.get` would return
per key, the rows each query yields, and the measured duration
`(time.time() - start_time) * 1000`. -/
structure ReportsEnv where
  cache_lookup : String → Option Envelope
  sales_rows : List SalesRow
  product_rows : List ProductRow
  customer_rows : List CustomerRow
  category_rows : List CategoryRow
  summary_input : SummaryInput
  dur_ms : ℚ

/-- The cache key `get_sales_report` derives (lines 177-182): prefix
`report:sales` with the request's period value and its raw explicit
`date_range` bounds (`None` when absent; a `datetime.date` when present,
which `json.dumps` cannot serialize). -/
def sales_cache_key (req : ReportRequest) : Except String String :=
  CacheManager.generate_cache_key "report:sales"
    [("period", .str req.period.value),
     ("start", match req.date_range with | some (s, _) => .date s | none => .null),
     ("end", match req.date_range with | some (_, e) => .date e | none => .null)]

/-- Embedding of `ReportService.get_sales_report` (lines 164-253): derive
the cache key, consult the cache, and on a hit return the cached dict with
`cached` overwritten to `True`; on a miss resolve the date range, run the
query, aggregate, and cache the fresh result with `ttl=600` before
returning it with `cached=False` and the measured duration. -/
def get_sales_report (today : Int) (env : ReportsEnv) (req : ReportRequest) :
    Except String (Envelope × List CacheOp) :=
  match sales_cache_key req with
  | .error e => .error e
  | .ok key =>
    match env.cache_lookup key with
    | some cached => .ok ({ cached with cached := true }, [.get key])
    | none =>
      match get_date_range today req.period (req.date_range.map Prod.fst)
          (req.date_range.map Prod.snd) with
      | .error e => .error e
      | .ok _range =>
        .ok ({ report_type := "ventas"
               period := some req.period.value
               data := .sales (mk_sales_report env.sales_rows)
               cached := false
               execution_time_ms := some env.dur_ms },
             [.get key, .set key 600])

/-- Embedding of `ReportService.get_products_report` (lines 255-330): no
cache interaction at all — resolve the date range, run the query, aggregate
and return with `cached=False`. -/
def get_products_report (today : Int) (env : ReportsEnv) (req : ReportRequest) :
    Except String (Envelope × List CacheOp) :=
  match get_date_range today req.period (req.date_range.map Prod.fst)
      (req.date_range.map Prod.snd) with
  | .error e => .error e
  | .ok _range =>
    .ok ({ report_type := "productos"
           period := some req.period.value
           data := .products (mk_products_report env.product_rows)
           cached := false
           execution_time_ms := some env.dur_ms },
         [])

/-- Embedding of `ReportService.get_customers_report` (lines 332-400): also
cache-free. -/
def get_customers_report (today : Int) (env : ReportsEnv) (req : ReportRequest) :
    Except String (Envelope × List CacheOp) :=
  match get_date_range today req.period (req.date_range.map Prod.fst)
      (req.date_range.map Prod.snd) with
  | .error e => .error e
  | .ok _range =>
    .ok ({ report_type := "clientes"
           period := some req.period.value
           data := .customers (mk_customers_report env.customer_rows)
           cached := false
           execution_time_ms := some env.dur_ms },
         [])

/-- Embedding of `ReportService.get_revenue_by_category` (lines 402-463):
cache-free and untimed. -/
def get_revenue_by_category (today : Int) (env : ReportsEnv) (req : ReportRequest) :
    Except String (Envelope × List CacheOp) :=
  match get_date_range today req.period (req.date_range.map Prod.fst)
      (req.date_range.map Prod.snd) with
  | .error e => .error e
  | .ok _range =>
    .ok ({ report_type := "revenue_categoria"
           period := some req.period.value
           data := .categories (mk_revenue_by_category_report env.category_rows)
           cached := false
           execution_time_ms := none },
         [])

/-- Embedding of `ReportService.get_summary_dashboard` (lines 465-541):
cache-free, untimed, and without a period field. -/
def get_summary_dashboard (env : ReportsEnv) : Except String (Envelope × List CacheOp) :=
  .ok ({ report_type := "resumen"
         period := none
         data := .summary (mk_summary_metrics env.summary_input)
         cached := false
         execution_time_ms := none },
       [])

/-- Embedding of `ReportService.generate_report` (lines 543-574): dispatch
on the report type; the `if/elif` chain has a branch for `SALES`,
`PRODUCTS`, `CUSTOMERS`, `REVENUE_BY_CATEGORY` and `SUMMARY` only, so
`HOURLY_SALES` reaches the trailing `else` and raises
`ValueError("Tipo de reporte no soportado: ...")` exactly like a genuinely
unknown type would. -/
def generate_report (today : Int) (env : ReportsEnv) (req : ReportRequest) :
    Except String (Envelope × List CacheOp) :=
  match req.report_type with
  | .sales => get_sales_report today env req
  | .products => get_products_report today env req
  | .customers => get_customers_report today env req
  | .revenue_by_category => get_revenue_by_category today env req
  | .summary => get_summary_dashboard env
  | .hourly_sales => .error ("Tipo de reporte no soportado: " ++ ReportType.value .hourly_sales)

end ReportService

/-! ## Theorems

First a toolbox of small lemmas about the embedded operations, then one
theorem per claim (with witnesses and counterexamples where applicable).
-/

namespace DatabaseManager

theorem apply_failures_nil (st : DBState) : apply_failures [] st = st := rfl

theorem apply_failures_cons (t : Int) (ts : List Int) (st : DBState) :
    apply_failures (t :: ts) st = apply_failures ts (handle_failure t st) := rfl

theorem handle_failure_failure_count (now : Int) (st : DBState) :
    (handle_failure now st).failure_count = st.failure_count + 1 := by
  simp only [handle_failure]
  split <;> rfl

theorem handle_failure_failure_threshold (now : Int) (st : DBState) :
    (handle_failure now st).failure_threshold = st.failure_threshold := by
  simp only [handle_failure]
  split <;> rfl

theorem handle_failure_circuit_timeout (now : Int) (st : DBState) :
    (handle_failure now st).circuit_timeout = st.circuit_timeout := by
  simp only [handle_failure]
  split <;> rfl

theorem handle_failure_last_failure_time (now : Int) (st : DBState) :
    (handle_failure now st).last_failure_time = some now := by
  simp only [handle_failure]
  split <;> rfl

theorem handle_failure_circuit_open (now : Int) (st : DBState) :
    (handle_failure now st).circuit_open =
      (st.circuit_open || decide (st.failure_count + 1 ≥ st.failure_threshold)) := by
  simp only [handle_failure]
  split
  · next h => simp [h]
  · next h => simp [h]

theorem apply_failures_failure_threshold (ts : List Int) :
    ∀ st : DBState, (apply_failures ts st).failure_threshold = st.failure_threshold := by
  induction ts with
  | nil => intro st; rfl
  | cons t ts ih =>
    intro st
    rw [apply_failures_cons, ih, handle_failure_failure_threshold]

theorem apply_failures_circuit_timeout (ts : List Int) :
    ∀ st : DBState, (apply_failures ts st).circuit_timeout = st.circuit_timeout := by
  induction ts with
  | nil => intro st; rfl
  | cons t ts ih =>
    intro st
    rw [apply_failures_cons, ih, handle_failure_circuit_timeout]

theorem apply_failures_failure_count (ts : List Int) :
    ∀ st : DBState, (apply_failures ts st).failure_count = st.failure_count + ts.length := by
  induction ts with
  | nil => intro st; simp [apply_failures_nil]
  | cons t ts ih =>
    intro st
    rw [apply_failures_cons, ih, handle_failure_failure_count]
    simp only [List.length_cons]
    push_cast
    ring

theorem apply_failures_open_mono (ts : List Int) :
    ∀ st : DBState, st.circuit_open = true → (apply_failures ts st).circuit_open = true := by
  induction ts with
  | nil => intro st h; exact h
  | cons t ts ih =>
    intro st h
    rw [apply_failures_cons]
    exact ih _ (by rw [handle_failure_circuit_open, h]; rfl)

theorem apply_failures_closed_below_threshold (ts : List Int) :
    ∀ st : DBState, st.circuit_open = false →
      st.failure_count + ts.length < st.failure_threshold →
      (apply_failures ts st).circuit_open = false := by
  induction ts with
  | nil => intro st h _; exact h
  | cons t ts ih =>
    intro st h hlt
    rw [apply_failures_cons]
    refine ih _ ?_ ?_
    · rw [handle_failure_circuit_open, h]
      simp only [Bool.false_or, decide_eq_false_iff_not, not_le]
      simp only [List.length_cons] at hlt
      push_cast at hlt
      omega
    · rw [handle_failure_failure_count, handle_failure_failure_threshold]
      simp only [List.length_cons] at hlt
      push_cast at hlt ⊢
      omega

theorem apply_failures_opens_at_threshold (ts : List Int) :
    ∀ st : DBState, ts ≠ [] →
      st.failure_count + ts.length ≥ st.failure_threshold →
      (apply_failures ts st).circuit_open = true := by
  induction ts with
  | nil => intro st h _; exact absurd rfl h
  | cons t ts ih =>
    intro st _ hge
    rw [apply_failures_cons]
    cases ts with
    | nil =>
      rw [apply_failures_nil, handle_failure_circuit_open]
      simp only [List.length_cons, List.length_nil] at hge
      push_cast at hge
      have : st.failure_count + 1 ≥ st.failure_threshold := by omega
      simp [this]
    | cons t2 ts2 =>
      refine ih _ (by simp) ?_
      rw [handle_failure_failure_count, handle_failure_failure_threshold]
      simp only [List.length_cons] at hge ⊢
      push_cast at hge ⊢
      omega

theorem check_circuit_breaker_frozen (now t : Int) (st : DBState)
    (hopen : st.circuit_open = true) (hl : st.last_failure_time = some t)
    (hw : ¬ now - t > st.circuit_timeout) :
    check_circuit_breaker now st = st := by
  simp only [check_circuit_breaker, hopen, hl]
  simp [hw]

theorem get_connection_rejects (now t : Int) (engineOk : Bool) (st : DBState)
    (hopen : st.circuit_open = true) (hl : st.last_failure_time = some t)
    (hw : ¬ now - t > st.circuit_timeout) :
    get_connection now engineOk st =
      { outcome := .circuitOpenError, touched_engine := false, state := st } := by
  simp only [get_connection, check_circuit_breaker_frozen now t st hopen hl hw, hopen]
  simp

end DatabaseManager

/-- C1: a freshly initialized `DatabaseManager` whose breaker threshold is
`T ≥ 1` stays closed while fewer than `T` consecutive failures have been
recorded, becomes open exactly when the `T`-th consecutive failure makes
`failure_count` reach `failure_threshold`, and — while open with the
timeout not yet elapsed since the last failure — every `get_connection`
call (hence every `query`/`execute_query`) raises `CircuitBreakerError`
without touching the connection-acquisition line or the storage engine and
leaves the state unchanged. -/
theorem C1_breaker_threshold_fail_fast (T W : Int) (ts : List Int) (hT : 1 ≤ T) :
    ((ts.length : Int) < T →
      (DatabaseManager.apply_failures ts (DatabaseManager.init T W)).circuit_open = false)
  ∧ ((ts.length : Int) ≥ T →
      (DatabaseManager.apply_failures ts (DatabaseManager.init T W)).circuit_open = true
      ∧ ∀ now t engineOk,
          (DatabaseManager.apply_failures ts (DatabaseManager.init T W)).last_failure_time =
              some t →
          now - t ≤ W →
          DatabaseManager.get_connection now engineOk
              (DatabaseManager.apply_failures ts (DatabaseManager.init T W)) =
            { outcome := .circuitOpenError, touched_engine := false,
              state := DatabaseManager.apply_failures ts (DatabaseManager.init T W) }) := by
  constructor
  · intro hlt
    exact DatabaseManager.apply_failures_closed_below_threshold ts _ rfl
      (by simpa [DatabaseManager.init] using hlt)
  · intro hge
    have hne : ts ≠ [] := by
      intro h
      subst h
      simp only [List.length_nil, Nat.cast_zero] at hge
      omega
    have hopen : (DatabaseManager.apply_failures ts (DatabaseManager.init T W)).circuit_open =
        true :=
      DatabaseManager.apply_failures_opens_at_threshold ts _ hne
        (by simpa [DatabaseManager.init] using hge)
    refine ⟨hopen, fun now t engineOk hl hw => ?_⟩
    refine DatabaseManager.get_connection_rejects now t engineOk _ hopen hl ?_
    rw [DatabaseManager.apply_failures_circuit_timeout]
    simp only [DatabaseManager.init]
    omega

/-- Witness for C1 at threshold 3, timeout 30: three failures at times
0, 1, 2 open the breaker, two leave it closed, and a call at time 10 is
rejected without touching the engine. -/
theorem C1_witness :
    (DatabaseManager.apply_failures [0, 1] (DatabaseManager.init 3 30)).circuit_open = false
  ∧ (DatabaseManager.apply_failures [0, 1, 2] (DatabaseManager.init 3 30)).circuit_open = true
  ∧ DatabaseManager.get_connection 10 true
        (DatabaseManager.apply_failures [0, 1, 2] (DatabaseManager.init 3 30)) =
      { outcome := .circuitOpenError, touched_engine := false,
        state := DatabaseManager.apply_failures [0, 1, 2] (DatabaseManager.init 3 30) } :=
  ⟨(C1_breaker_threshold_fail_fast 3 30 [0, 1] (by decide)).1 (by decide),
   ((C1_breaker_threshold_fail_fast 3 30 [0, 1, 2] (by decide)).2 (by decide)).1,
   ((C1_breaker_threshold_fail_fast 3 30 [0, 1, 2] (by decide)).2 (by decide)).2
     10 2 true (by decide) (by decide)⟩

/-- C2 counterexample: threshold 3, timeout 30, failures at times 0, 1, 2
open the breaker.  The probe at time 100 (timeout elapsed) is admitted and
fails — but the breaker does NOT reopen (`failure_count` was reset to 0 and
the failed probe only brings it back to 1 < 3), so the next call at time
101 is admitted rather than rejected with `CircuitBreakerError`, refuting
the claim that a failed probe immediately reopens the breaker. -/
theorem C2_counterexample :
    (DatabaseManager.get_connection 100 false
        (DatabaseManager.apply_failures [0, 1, 2] (DatabaseManager.init 3 30))).outcome =
      .runtimeError
  ∧ (DatabaseManager.get_connection 100 false
        (DatabaseManager.apply_failures [0, 1, 2] (DatabaseManager.init 3 30))).state.circuit_open
      = false
  ∧ (DatabaseManager.get_connection 100 false
        (DatabaseManager.apply_failures [0, 1, 2] (DatabaseManager.init 3 30))).state.failure_count
      = 1
  ∧ (DatabaseManager.get_connection 101 false
        (DatabaseManager.get_connection 100 false
          (DatabaseManager.apply_failures [0, 1, 2] (DatabaseManager.init 3 30))).state).outcome
      ≠ .circuitOpenError := by
  decide

namespace DatabaseManager

theorem check_circuit_breaker_of_closed (now : Int) (s : DBState)
    (h : s.circuit_open = false) : check_circuit_breaker now s = s := by
  simp [check_circuit_breaker, h]

theorem get_connection_admits (now : Int) (engineOk : Bool) (s : DBState)
    (h : s.circuit_open = false) :
    (get_connection now engineOk s).outcome ≠ .circuitOpenError := by
  simp only [get_connection, check_circuit_breaker_of_closed now s h, h]
  cases engineOk <;> simp

end DatabaseManager

/-- C2 (amended): once `now − last_failure_time` exceeds `timeout_seconds`,
the breaker is fully closed and `failure_count` reset — every subsequent
call is admitted, not just a single probe.  If the first admitted call (the
probe) fails, the failure counter restarts at 1 and the breaker reopens
only when `1 ≥ failure_threshold`; in particular, with a threshold above 1
the call after a failed probe is admitted (it does not raise
`CircuitBreakerError`), and `failure_threshold` consecutive failures are
again required before calls are rejected. -/
theorem C2_amended_probe_behaviour (st : DBState) (now t : Int)
    (hopen : st.circuit_open = true) (hl : st.last_failure_time = some t)
    (hw : now - t > st.circuit_timeout) :
    (DatabaseManager.get_connection now false st).outcome = .runtimeError
  ∧ (DatabaseManager.get_connection now false st).touched_engine = true
  ∧ (DatabaseManager.get_connection now false st).state.failure_count = 1
  ∧ (DatabaseManager.get_connection now false st).state.circuit_open =
      decide (1 ≥ st.failure_threshold)
  ∧ (1 < st.failure_threshold → ∀ now2 engineOk,
      (DatabaseManager.get_connection now2 engineOk
          (DatabaseManager.get_connection now false st).state).outcome ≠ .circuitOpenError) := by
  have hcheck : DatabaseManager.check_circuit_breaker now st =
      { st with circuit_open := false, failure_count := 0 } := by
    simp only [DatabaseManager.check_circuit_breaker, hopen, hl]
    simp [hw]
  have hconn : DatabaseManager.get_connection now false st =
      { outcome := .runtimeError, touched_engine := true,
        state := DatabaseManager.handle_failure now
          { st with circuit_open := false, failure_count := 0 } } := by
    simp [DatabaseManager.get_connection, hcheck]
  have hfc : (DatabaseManager.get_connection now false st).state.failure_count = 1 := by
    rw [hconn]
    simp [DatabaseManager.handle_failure_failure_count]
  have hco : (DatabaseManager.get_connection now false st).state.circuit_open =
      decide (1 ≥ st.failure_threshold) := by
    rw [hconn]
    simp only [DatabaseManager.handle_failure_circuit_open]
    simp only [Bool.false_or]
    exact decide_eq_decide.mpr (by omega)
  refine ⟨by rw [hconn], by rw [hconn], hfc, hco, ?_⟩
  intro hthr now2 engineOk
  refine DatabaseManager.get_connection_admits now2 engineOk _ ?_
  rw [hco]
  exact decide_eq_false (by omega)

/-- Witness for the amended C2 at the concrete trace of `C2_counterexample`:
breaker opened by failures at 0, 1, 2 (threshold 3, timeout 30), probe at
time 100. -/
theorem C2_amended_witness :
    (DatabaseManager.get_connection 100 false
        (DatabaseManager.apply_failures [0, 1, 2] (DatabaseManager.init 3 30))).outcome =
      .runtimeError
  ∧ (DatabaseManager.get_connection 100 false
        (DatabaseManager.apply_failures [0, 1, 2] (DatabaseManager.init 3 30))).state.circuit_open
      = decide ((1 : Int) ≥ 3)
  ∧ (DatabaseManager.get_connection 101 true
        (DatabaseManager.get_connection 100 false
          (DatabaseManager.apply_failures [0, 1, 2] (DatabaseManager.init 3 30))).state).outcome
      ≠ .circuitOpenError := by
  have h := C2_amended_probe_behaviour
    (DatabaseManager.apply_failures [0, 1, 2] (DatabaseManager.init 3 30)) 100 2
    (by decide) (by decide) (by decide)
  refine ⟨h.1, ?_, h.2.2.2.2 (by decide) 101 true⟩
  rw [h.2.2.2.1]
  rfl

/-- C9: `failure_count ≥ 0` is an invariant of the breaker state, preserved
by every `get_connection` call (success, failure, or timeout reset), and a
successful operation while the breaker is closed decrements a positive
`failure_count` by exactly one (leaving an already-zero count at zero, never
going below it). -/
theorem C9_failure_count_invariant (st : DBState) (h0 : 0 ≤ st.failure_count) :
    (∀ evs, 0 ≤ (DatabaseManager.run_events evs st).failure_count)
  ∧ (∀ now, st.circuit_open = false →
      (DatabaseManager.get_connection now true st).state.failure_count =
        if 0 < st.failure_count then st.failure_count - 1 else st.failure_count) := by
  constructor
  · have step : ∀ (s : DBState) (now : Int) (engineOk : Bool), 0 ≤ s.failure_count →
        0 ≤ (DatabaseManager.get_connection now engineOk s).state.failure_count := by
      intro s now engineOk hs
      have hcheck : 0 ≤ (DatabaseManager.check_circuit_breaker now s).failure_count := by
        simp only [DatabaseManager.check_circuit_breaker]
        split
        · exact hs
        · split
          · split
            · simp
            · exact hs
          · exact hs
      simp only [DatabaseManager.get_connection]
      split
      · exact hcheck
      · split
        · simp only
          split
          · omega
          · exact hcheck
        · simp only [DatabaseManager.handle_failure_failure_count]
          omega
    intro evs
    induction evs generalizing st with
    | nil => exact h0
    | cons e evs ih =>
      cases e with
      | call now engineOk => exact ih _ (step st now engineOk h0)
  · intro now hclosed
    have hcheck : DatabaseManager.check_circuit_breaker now st = st := by
      simp [DatabaseManager.check_circuit_breaker, hclosed]
    simp [DatabaseManager.get_connection, hcheck, hclosed]
    split_ifs <;> omega

/-- Witness for C9: from a closed state with `failure_count = 2`
(threshold 3, timeout 60), a mixed history keeps the count nonnegative and
one success decrements it to 1. -/
theorem C9_witness :
    0 ≤ (DatabaseManager.run_events
        [.call 5 true, .call 6 false, .call 7 true, .call 8 true, .call 9 true]
        { circuit_open := false, failure_count := 2, failure_threshold := 3,
          circuit_timeout := 60, last_failure_time := none, errors := 0 }).failure_count
  ∧ (DatabaseManager.get_connection 5 true
        { circuit_open := false, failure_count := 2, failure_threshold := 3,
          circuit_timeout := 60, last_failure_time := none, errors := 0 }).state.failure_count =
      if (0 : Int) < 2 then 2 - 1 else 2 :=
  ⟨(C9_failure_count_invariant _ (by decide)).1 _,
   (C9_failure_count_invariant _ (by decide)).2 5 rfl⟩

namespace CacheManager

theorem lookup_insert_mem {V : Type} (m : List (String × V)) (key : String) (v : V) :
    lookup_mem (insert_mem m key v) key = some v := by
  induction m with
  | nil => simp [lookup_mem, insert_mem]
  | cons p m ih =>
    by_cases h : p.1 == key
    · simp only [insert_mem, List.filter_cons, h, Bool.not_true] at ih ⊢
      exact ih
    · simp [insert_mem, lookup_mem, List.filter_cons, h]

theorem handle_failure_memory_cache {V : Type} (st : CacheState V) :
    (handle_failure st).memory_cache = st.memory_cache := by
  simp only [handle_failure]
  split <;> rfl

theorem memory_get_fst {V : Type} (st : CacheState V) (key : String) :
    (memory_get st key).1 = lookup_mem st.memory_cache key := by
  simp only [memory_get]
  split <;> simp_all

end CacheManager

/-- C3 counterexample: an enabled cache with a live Redis client, closed
breaker, and the key present in the local map.  The remote fetch misses,
and `get` returns `None` — it never consults the local map on a remote
miss, contradicting the claim that a remote miss falls back to the local
map. -/
theorem C3_counterexample :
    CacheManager.lookup_mem
        (CacheState.mk true true false 0 3 [("k", (7 : Nat))] 0 0 0).memory_cache "k" =
      some 7
  ∧ (CacheManager.get (CacheState.mk true true false 0 3 [("k", (7 : Nat))] 0 0 0) "k"
        CacheManager.RemoteGet.missing).1 = none := by
  decide

/-- C3 (amended): for an enabled cache, `get` consults the local map — and
returns the stored value when present — exactly when the remote fetch is
skipped (no client, or breaker open) or the remote fetch raises; a remote
MISS is returned as absent without consulting the local map; a remote hit
is returned directly.  `get` is total: it never raises for cache
unavailability. -/
theorem C3_amended_get_fallback {V : Type} (st : CacheState V) (key : String)
    (remote : CacheManager.RemoteGet V) (hen : st.enabled = true) :
    (st.has_redis = false ∨ st.circuit_open = true →
      (CacheManager.get st key remote).1 = CacheManager.lookup_mem st.memory_cache key)
  ∧ (remote = .error →
      (CacheManager.get st key remote).1 = CacheManager.lookup_mem st.memory_cache key)
  ∧ (st.has_redis = true → st.circuit_open = false → remote = .missing →
      (CacheManager.get st key remote).1 = none)
  ∧ (∀ v, st.has_redis = true → st.circuit_open = false → remote = .found v →
      (CacheManager.get st key remote).1 = some v) := by
  refine ⟨?_, ?_, ?_, ?_⟩
  · intro hskip
    have hcond : (st.has_redis && !st.circuit_open) = false := by
      rcases hskip with h | h <;> simp [h]
    simp [CacheManager.get, hen, hcond, CacheManager.memory_get_fst]
  · intro herr
    subst herr
    by_cases hcond : (st.has_redis && !st.circuit_open) = true
    · simp [CacheManager.get, hen, hcond, CacheManager.memory_get_fst,
        CacheManager.handle_failure_memory_cache]
    · simp only [Bool.not_eq_true] at hcond
      simp [CacheManager.get, hen, hcond, CacheManager.memory_get_fst]
  · intro hr hc hm
    subst hm
    simp [CacheManager.get, hen, hr, hc]
  · intro v hr hc hf
    subst hf
    simp [CacheManager.get, hen, hr, hc]

/-- Witness for the amended C3: with no Redis client the local map answers;
with a live client a remote error also falls back locally, a remote miss
answers `None` despite the local entry, and a remote hit answers the remote
value. -/
theorem C3_amended_witness :
    (CacheManager.get (CacheState.mk true false false 0 3 [("k", (7 : Nat))] 0 0 0) "k"
        CacheManager.RemoteGet.missing).1 =
      CacheManager.lookup_mem [("k", (7 : Nat))] "k"
  ∧ (CacheManager.get (CacheState.mk true true false 0 3 [("k", (7 : Nat))] 0 0 0) "k"
        CacheManager.RemoteGet.error).1 =
      CacheManager.lookup_mem [("k", (7 : Nat))] "k"
  ∧ (CacheManager.get (CacheState.mk true true false 0 3 [("k", (7 : Nat))] 0 0 0) "k"
        CacheManager.RemoteGet.missing).1 = none
  ∧ (CacheManager.get (CacheState.mk true true false 0 3 [("k", (7 : Nat))] 0 0 0) "k"
        (CacheManager.RemoteGet.found 9)).1 = some 9 :=
  ⟨(C3_amended_get_fallback (CacheState.mk true false false 0 3 [("k", (7 : Nat))] 0 0 0)
      "k" CacheManager.RemoteGet.missing rfl).1 (Or.inl rfl),
   (C3_amended_get_fallback (CacheState.mk true true false 0 3 [("k", (7 : Nat))] 0 0 0)
      "k" CacheManager.RemoteGet.error rfl).2.1 rfl,
   (C3_amended_get_fallback (CacheState.mk true true false 0 3 [("k", (7 : Nat))] 0 0 0)
      "k" CacheManager.RemoteGet.missing rfl).2.2.1 rfl rfl rfl,
   (C3_amended_get_fallback (CacheState.mk true true false 0 3 [("k", (7 : Nat))] 0 0 0)
      "k" (CacheManager.RemoteGet.found 9) rfl).2.2.2 9 rfl rfl rfl⟩

/-- C4 counterexample: an enabled cache with a live Redis client and closed
breaker; the remote write succeeds, `set` returns `True`, and the local map
does NOT receive the entry — contradicting the claim that every `set`
writes the local map regardless of the remote outcome. -/
theorem C4_counterexample :
    (CacheManager.set (CacheState.mk true true false 0 3 ([] : List (String × Nat)) 0 0 0)
        "k" 7 none CacheManager.RemoteSet.ok).1 = true
  ∧ CacheManager.lookup_mem
        (CacheManager.set (CacheState.mk true true false 0 3 ([] : List (String × Nat)) 0 0 0)
          "k" 7 none CacheManager.RemoteSet.ok).2.memory_cache "k" = none := by
  decide

/-- C4 (amended): for an enabled cache, `set` writes the local map exactly
when the remote write is skipped (no client or breaker open) or fails; a
successful remote write returns `True` with the local map untouched.  In
the fallback cases the local map afterwards contains `key ↦ value`. -/
theorem C4_amended_set_fallback {V : Type} (st : CacheState V) (key : String) (v : V)
    (ttl : Option Int) (remote : CacheManager.RemoteSet) (hen : st.enabled = true) :
    (st.has_redis = true → st.circuit_open = false → remote = .ok →
      (CacheManager.set st key v ttl remote).1 = true
      ∧ (CacheManager.set st key v ttl remote).2.memory_cache = st.memory_cache)
  ∧ (st.has_redis = false ∨ st.circuit_open = true ∨ remote = .error →
      (CacheManager.set st key v ttl remote).1 = true
      ∧ CacheManager.lookup_mem (CacheManager.set st key v ttl remote).2.memory_cache key =
          some v) := by
  constructor
  · intro hr hc hok
    subst hok
    simp [CacheManager.set, hen, hr, hc]
  · intro hfb
    rcases hfb with h | h | h
    · have hcond : (st.has_redis && !st.circuit_open) = false := by simp [h]
      simp [CacheManager.set, hen, hcond, CacheManager.lookup_insert_mem]
    · have hcond : (st.has_redis && !st.circuit_open) = false := by simp [h]
      simp [CacheManager.set, hen, hcond, CacheManager.lookup_insert_mem]
    · subst h
      by_cases hcond : (st.has_redis && !st.circuit_open) = true
      · simp [CacheManager.set, hen, hcond, CacheManager.lookup_insert_mem]
      · simp only [Bool.not_eq_true] at hcond
        simp [CacheManager.set, hen, hcond, CacheManager.lookup_insert_mem]

/-- Witness for the amended C4: a successful remote write leaves the local
map empty; with no Redis client the entry lands in the local map. -/
theorem C4_amended_witness :
    ((CacheManager.set (CacheState.mk true true false 0 3 ([] : List (String × Nat)) 0 0 0)
        "k" 7 none CacheManager.RemoteSet.ok).1 = true
      ∧ (CacheManager.set (CacheState.mk true true false 0 3 ([] : List (String × Nat)) 0 0 0)
          "k" 7 none CacheManager.RemoteSet.ok).2.memory_cache = [])
  ∧ ((CacheManager.set (CacheState.mk true false false 0 3 ([] : List (String × Nat)) 0 0 0)
        "k" 7 none CacheManager.RemoteSet.ok).1 = true
      ∧ CacheManager.lookup_mem
          (CacheManager.set (CacheState.mk true false false 0 3 ([] : List (String × Nat)) 0 0 0)
            "k" 7 none CacheManager.RemoteSet.ok).2.memory_cache "k" = some 7) :=
  ⟨(C4_amended_set_fallback
      (CacheState.mk true true false 0 3 ([] : List (String × Nat)) 0 0 0)
      "k" 7 none CacheManager.RemoteSet.ok rfl).1 rfl rfl rfl,
   (C4_amended_set_fallback
      (CacheState.mk true false false 0 3 ([] : List (String × Nat)) 0 0 0)
      "k" 7 none CacheManager.RemoteSet.ok rfl).2 (Or.inl rfl)⟩

/-- C6: for every period other than custom, `_get_date_range` returns the
fixed offsets (day = today..today, week = 7 days, month = 30, quarter = 90,
year = 365) with start ≤ end ≤ today; for custom it returns the explicit
pair, and raises `ValueError` when either bound is missing. -/
theorem C6_date_range_offsets (today : Int) (sd ed : Option Int) :
    ReportService.get_date_range today .day sd ed = .ok (today, today)
  ∧ ReportService.get_date_range today .week sd ed = .ok (today - 7, today)
  ∧ ReportService.get_date_range today .month sd ed = .ok (today - 30, today)
  ∧ ReportService.get_date_range today .quarter sd ed = .ok (today - 90, today)
  ∧ ReportService.get_date_range today .year sd ed = .ok (today - 365, today)
  ∧ (∀ p : ReportPeriod, p ≠ .custom →
      ∃ s e, ReportService.get_date_range today p sd ed = .ok (s, e) ∧ s ≤ e ∧ e ≤ today)
  ∧ (∀ s e, sd = some s → ed = some e →
      ReportService.get_date_range today .custom sd ed = .ok (s, e))
  ∧ (sd = none ∨ ed = none →
      ∃ msg, ReportService.get_date_range today .custom sd ed = .error msg) := by
  refine ⟨rfl, rfl, rfl, rfl, rfl, ?_, ?_, ?_⟩
  · intro p hp
    cases p with
    | custom => exact absurd rfl hp
    | day => exact ⟨today, today, rfl, le_refl _, le_refl _⟩
    | week => exact ⟨today - 7, today, rfl, by omega, le_refl _⟩
    | month => exact ⟨today - 30, today, rfl, by omega, le_refl _⟩
    | quarter => exact ⟨today - 90, today, rfl, by omega, le_refl _⟩
    | year => exact ⟨today - 365, today, rfl, by omega, le_refl _⟩
  · intro s e hs he
    subst hs
    subst he
    rfl
  · intro h
    rcases h with h | h <;> subst h
    · exact ⟨_, rfl⟩
    · cases sd <;> exact ⟨_, rfl⟩

/-- Witness for C6 at `today = 1000`: the week offset, a custom range, and
the missing-bound failure. -/
theorem C6_witness :
    ReportService.get_date_range 1000 .week none none = .ok (993, 1000)
  ∧ ReportService.get_date_range 1000 .custom (some 5) (some 9) = .ok (5, 9)
  ∧ ∃ msg, ReportService.get_date_range 1000 .custom none (some 9) = .error msg :=
  ⟨by have h := (C6_date_range_offsets 1000 none none).2.1; simpa using h,
   (C6_date_range_offsets 1000 (some 5) (some 9)).2.2.2.2.2.2.1 5 9 rfl rfl,
   (C6_date_range_offsets 1000 none (some 9)).2.2.2.2.2.2.2 (Or.inl rfl)⟩

/-- C7: in a sales report, `total_revenue` is the sum of the rows' sales
totals, `total_orders` the sum of their order counts, and `average_ticket`
their quotient when any orders exist (`0.0` otherwise); the scenario rows
`[(day1, 100, 2), (day2, 200, 3)]` yield `total_revenue = 300`,
`total_orders = 5`, `average_ticket = 60`. -/
theorem C7_sales_totals (rows : List ReportService.SalesRow) :
    (ReportService.mk_sales_report rows).total_revenue =
      (rows.map (fun r => r.total_ventas)).sum
  ∧ (ReportService.mk_sales_report rows).total_orders =
      (rows.map (fun r => r.numero_pedidos)).sum
  ∧ (ReportService.mk_sales_report rows).average_ticket =
      (if 0 < (rows.map (fun r => r.numero_pedidos)).sum then
        (rows.map (fun r => r.total_ventas)).sum /
          (((rows.map (fun r => r.numero_pedidos)).sum : Int) : ℚ)
      else 0)
  ∧ (ReportService.mk_sales_report
        [ReportService.SalesRow.mk "day1" 100 2 50,
         ReportService.SalesRow.mk "day2" 200 3 (200 / 3)]).total_revenue = 300
  ∧ (ReportService.mk_sales_report
        [ReportService.SalesRow.mk "day1" 100 2 50,
         ReportService.SalesRow.mk "day2" 200 3 (200 / 3)]).total_orders = 5
  ∧ (ReportService.mk_sales_report
        [ReportService.SalesRow.mk "day1" 100 2 50,
         ReportService.SalesRow.mk "day2" 200 3 (200 / 3)]).average_ticket = 60 := by
  refine ⟨?_, ?_, ?_, by norm_num [ReportService.mk_sales_report],
    by norm_num [ReportService.mk_sales_report], by norm_num [ReportService.mk_sales_report]⟩
  · simp [ReportService.mk_sales_report, List.map_map, Function.comp_def]
  · simp [ReportService.mk_sales_report, List.map_map, Function.comp_def]
  · simp [ReportService.mk_sales_report, List.map_map, Function.comp_def]

/-- C10: a `ReportRequest` whose type is `HOURLY_SALES` — a declared
`ReportType` member with its own payload model (`HourlySalesReport`) —
reaches the trailing `else` of `generate_report`'s dispatch chain and
raises the same unsupported-report-type `ValueError` an unknown type would;
no branch implements it. -/
theorem C10_hourly_sales_unsupported (today : Int) (env : ReportService.ReportsEnv)
    (req : ReportRequest) (h : req.report_type = .hourly_sales) :
    ReportService.generate_report today env req =
      .error ("Tipo de reporte no soportado: " ++ ReportType.value .hourly_sales) := by
  obtain ⟨rt, p, dr⟩ := req
  simp only at h
  subst h
  rfl

/-- Witness for C10 at a concrete request and environment. -/
theorem C10_witness :
    ReportService.generate_report 0
      (ReportService.ReportsEnv.mk (fun _ => none) [] [] [] []
        (ReportService.SummaryInput.mk none none none none) 0)
      (ReportRequest.mk .hourly_sales .week none) =
    .error ("Tipo de reporte no soportado: " ++ ReportType.value .hourly_sales) :=
  C10_hourly_sales_unsupported 0
    (ReportService.ReportsEnv.mk (fun _ => none) [] [] [] []
      (ReportService.SummaryInput.mk none none none none) 0)
    (ReportRequest.mk .hourly_sales .week none) rfl

namespace ReportService

theorem get_date_range_ok_of_ne_custom (today : Int) (p : ReportPeriod)
    (sd ed : Option Int) (h : p ≠ .custom) :
    ∃ r, get_date_range today p sd ed = .ok r := by
  cases p with
  | custom => exact absurd rfl h
  | day => exact ⟨_, rfl⟩
  | week => exact ⟨_, rfl⟩
  | month => exact ⟨_, rfl⟩
  | quarter => exact ⟨_, rfl⟩
  | year => exact ⟨_, rfl⟩

end ReportService

/-- C5 counterexample: a products request against an environment whose
cache would answer every key (the lookup returns a stored envelope for any
key, and the product query yields no rows).  `generate_report` returns the
freshly computed envelope with `cached = false` and performs NO cache
operation at all — refuting the claim that for every supported report type
the cache is consulted before the query and a hit is returned with
`cached = true`. -/
theorem C5_counterexample :
    ReportService.generate_report 0
      (ReportService.ReportsEnv.mk
        (fun _ => some
          (ReportService.Envelope.mk "productos" (some "semana")
            (.products (ReportService.mk_products_report [])) false (some 1)))
        [] [] [] [] (ReportService.SummaryInput.mk none none none none) 1)
      (ReportRequest.mk .products .week none) =
    .ok (ReportService.Envelope.mk "productos" (some "semana")
          (.products (ReportService.mk_products_report [])) false (some 1),
         ([] : List ReportService.CacheOp)) := rfl

/-- C5 (amended): only the sales report follows the cache-first protocol.
For `report_type = sales` with no explicit date range (explicit
`datetime.date` bounds make the key derivation raise `TypeError`, see
`dumpValue`), `generate_report` derives the key from the period (with null
bounds), consults the cache first, returns the cached envelope with
`cached = true` on a hit, and on a miss (for a non-custom period) executes
the query, caches the fresh envelope under a fixed TTL of 600 seconds, and
returns it with `cached = false` and the measured `execution_time_ms`.
For `report_type = products` (non-custom period) the cache is never
consulted nor populated and the envelope always has `cached = false`. -/
theorem C5_amended_sales_only_cache (today : Int) (env : ReportService.ReportsEnv)
    (req : ReportRequest) :
    (req.report_type = .sales → req.date_range = none →
      ∀ key, ReportService.sales_cache_key req = .ok key →
        (∀ envC, env.cache_lookup key = some envC →
          ReportService.generate_report today env req =
            .ok ({ envC with cached := true }, [.get key]))
        ∧ (env.cache_lookup key = none → req.period ≠ .custom →
          ReportService.generate_report today env req =
            .ok (ReportService.Envelope.mk "ventas" (some req.period.value)
                  (.sales (ReportService.mk_sales_report env.sales_rows)) false
                  (some env.dur_ms),
                 [.get key, .set key 600])))
  ∧ (req.report_type = .products → req.period ≠ .custom →
      ReportService.generate_report today env req =
        .ok (ReportService.Envelope.mk "productos" (some req.period.value)
              (.products (ReportService.mk_products_report env.product_rows)) false
              (some env.dur_ms),
             ([] : List ReportService.CacheOp))) := by
  obtain ⟨rt, p, dr⟩ := req
  constructor
  · intro h1 h2 key hkey
    simp only at h1 h2
    subst h1
    subst h2
    constructor
    · intro envC hc
      simp only [ReportService.generate_report, ReportService.get_sales_report, hkey, hc]
    · intro hmiss hpne
      obtain ⟨r, hr⟩ := ReportService.get_date_range_ok_of_ne_custom today p
        ((none : Option (Int × Int)).map Prod.fst) ((none : Option (Int × Int)).map Prod.snd)
        (by simpa using hpne)
      simp only [ReportService.generate_report, ReportService.get_sales_report, hkey, hmiss,
        Option.map_none, hr]
  · intro h1 hpne
    simp only at h1 hpne
    subst h1
    obtain ⟨r, hr⟩ := ReportService.get_date_range_ok_of_ne_custom today p
      (dr.map Prod.fst) (dr.map Prod.snd) hpne
    simp only [ReportService.generate_report, ReportService.get_products_report, hr]

/-- Witness for the amended C5: a week sales request with a cold cache gets
the concrete derived key `report:sales:32e41cb0`, executes and caches with
TTL 600; a week products request performs no cache operation. -/
theorem C5_amended_witness :
    ReportService.generate_report 0
      (ReportService.ReportsEnv.mk (fun _ => none) [] [] [] []
        (ReportService.SummaryInput.mk none none none none) 2)
      (ReportRequest.mk .sales .week none) =
      .ok (ReportService.Envelope.mk "ventas" (some "semana")
            (.sales (ReportService.mk_sales_report [])) false (some 2),
           [.get "report:sales:32e41cb0", .set "report:sales:32e41cb0" 600])
  ∧ ReportService.generate_report 0
      (ReportService.ReportsEnv.mk (fun _ => none) [] [] [] []
        (ReportService.SummaryInput.mk none none none none) 2)
      (ReportRequest.mk .products .week none) =
      .ok (ReportService.Envelope.mk "productos" (some "semana")
            (.products (ReportService.mk_products_report [])) false (some 2),
           ([] : List ReportService.CacheOp)) :=
  ⟨((C5_amended_sales_only_cache 0
      (ReportService.ReportsEnv.mk (fun _ => none) [] [] [] []
        (ReportService.SummaryInput.mk none none none none) 2)
      (ReportRequest.mk .sales .week none)).1 rfl rfl "report:sales:32e41cb0" rfl).2
      rfl (by decide),
   (C5_amended_sales_only_cache 0
      (ReportService.ReportsEnv.mk (fun _ => none) [] [] [] []
        (ReportService.SummaryInput.mk none none none none) 2)
      (ReportRequest.mk .products .week none)).2 rfl (by decide)⟩

theorem charListLe_total : ∀ l1 l2 : List Char,
    charListLe l1 l2 = true ∨ charListLe l2 l1 = true := by
  intro l1
  induction l1 with
  | nil => intro l2; left; rfl
  | cons a as ih =>
    intro l2
    cases l2 with
    | nil => right; rfl
    | cons b bs =>
      simp only [charListLe]
      by_cases hab : a.toNat < b.toNat
      · left; simp [hab]
      · by_cases hba : b.toNat < a.toNat
        · right; simp [hba]
        · simpa [hab, hba] using ih bs

theorem charListLe_trans : ∀ l1 l2 l3 : List Char, charListLe l1 l2 = true →
    charListLe l2 l3 = true → charListLe l1 l3 = true := by
  intro l1
  induction l1 with
  | nil => intro l2 l3 _ _; rfl
  | cons a as ih =>
    intro l2 l3 h1 h2
    cases l2 with
    | nil => simp [charListLe] at h1
    | cons b bs =>
      cases l3 with
      | nil => simp [charListLe] at h2
      | cons c cs =>
        simp only [charListLe] at h1 h2 ⊢
        by_cases hab : a.toNat < b.toNat
        · by_cases hbc : b.toNat < c.toNat
          · simp [show a.toNat < c.toNat by omega]
          · by_cases hcb : c.toNat < b.toNat
            · simp [hbc, hcb] at h2
            · simp [show a.toNat < c.toNat by omega]
        · by_cases hba : b.toNat < a.toNat
          · simp [hab, hba] at h1
          · simp only [hab, hba, if_false] at h1
            by_cases hbc : b.toNat < c.toNat
            · simp [show a.toNat < c.toNat by omega]
            · by_cases hcb : c.toNat < b.toNat
              · simp [hbc, hcb] at h2
              · simp only [hbc, hcb, if_false] at h2
                have hac : ¬ a.toNat < c.toNat := by omega
                have hca : ¬ c.toNat < a.toNat := by omega
                simp only [hac, hca, if_false]
                exact ih bs cs h1 h2

theorem charListLe_antisymm : ∀ l1 l2 : List Char, charListLe l1 l2 = true →
    charListLe l2 l1 = true → l1 = l2 := by
  intro l1
  induction l1 with
  | nil =>
    intro l2 _ h2
    cases l2 with
    | nil => rfl
    | cons b bs => simp [charListLe] at h2
  | cons a as ih =>
    intro l2 h1 h2
    cases l2 with
    | nil => simp [charListLe] at h1
    | cons b bs =>
      simp only [charListLe] at h1 h2
      by_cases hab : a.toNat < b.toNat
      · simp [show ¬ b.toNat < a.toNat by omega, hab] at h2
      · by_cases hba : b.toNat < a.toNat
        · simp [hab, hba] at h1
        · have hEq : a = b := by
            have hn : a.toNat = b.toNat := by omega
            have h3 := congrArg Char.ofNat hn
            rwa [Char.ofNat_toNat, Char.ofNat_toNat] at h3
          subst hEq
          simp only [hab, hba, if_false] at h1 h2
          rw [ih bs h1 h2]

theorem pyStrLe_total (a b : String) : pyStrLe a b = true ∨ pyStrLe b a = true :=
  charListLe_total a.data b.data

theorem pyStrLe_trans (a b c : String) (h1 : pyStrLe a b = true) (h2 : pyStrLe b c = true) :
    pyStrLe a c = true :=
  charListLe_trans a.data b.data c.data h1 h2

theorem pyStrLe_antisymm (a b : String) (h1 : pyStrLe a b = true)
    (h2 : pyStrLe b a = true) : a = b :=
  congrArg String.mk (charListLe_antisymm a.data b.data h1 h2)

theorem sortPairs_eq_of_perm (ps qs : List (String × PyValue)) (hp : ps.Perm qs)
    (hnd : (ps.map Prod.fst).Nodup) : sortPairs ps = sortPairs qs := by
  haveI : IsTotal (String × PyValue) pyKeyLe := ⟨fun a b => pyStrLe_total a.1 b.1⟩
  haveI : IsTrans (String × PyValue) pyKeyLe := ⟨fun a b c => pyStrLe_trans a.1 b.1 c.1⟩
  have hs1 : List.Sorted pyKeyLe (sortPairs ps) := List.sorted_insertionSort pyKeyLe ps
  have hs2 : List.Sorted pyKeyLe (sortPairs qs) := List.sorted_insertionSort pyKeyLe qs
  have hperm : (sortPairs ps).Perm (sortPairs qs) :=
    (List.perm_insertionSort pyKeyLe ps).trans
      (hp.trans (List.perm_insertionSort pyKeyLe qs).symm)
  have hnd1 : ((sortPairs ps).map Prod.fst).Nodup :=
    (((List.perm_insertionSort pyKeyLe ps).map Prod.fst).nodup_iff).mpr hnd
  have hnd2 : ((sortPairs qs).map Prod.fst).Nodup :=
    (((List.perm_insertionSort pyKeyLe qs).map Prod.fst).nodup_iff).mpr
      (((hp.map Prod.fst).nodup_iff).mp hnd)
  have hpw1 : (sortPairs ps).Pairwise (fun a b => a.1 ≠ b.1) := by
    rw [List.Nodup, List.pairwise_map] at hnd1
    exact hnd1
  have hpw2 : (sortPairs qs).Pairwise (fun a b => a.1 ≠ b.1) := by
    rw [List.Nodup, List.pairwise_map] at hnd2
    exact hnd2
  haveI : IsAntisymm (String × PyValue) (fun a b => pyKeyLe a b ∧ a.1 ≠ b.1) :=
    ⟨fun a b h1 h2 => absurd (pyStrLe_antisymm a.1 b.1 h1.1 h2.1) h1.2⟩
  exact List.eq_of_perm_of_sorted hperm (hs1.and hpw1) (hs2.and hpw2)

theorem hexOfBytes_length : ∀ bs : List Nat, (hexOfBytes bs).length = 2 * bs.length := by
  intro bs
  induction bs with
  | nil => rfl
  | cons b bs ih =>
    simp only [hexOfBytes, List.length_cons, ih]
    ring

theorem md5_length (msg : List Nat) : (md5 msg).length = 16 := by
  simp [md5, le4]

/-- C8: `_generate_cache_key` is deterministic and order-independent — for
any prefix and any keyword-argument set (distinct attribute names, as in a
Python call), permuting the attribute order yields the same key — and every
successfully derived key is the prefix followed by `:` and an 8-character
digest of the canonicalized (key-sorted) parameters. -/
theorem C8_cache_key_order_independent (pre : String) (ps qs : List (String × PyValue))
    (hp : ps.Perm qs) (hnd : (ps.map Prod.fst).Nodup) :
    CacheManager.generate_cache_key pre ps = CacheManager.generate_cache_key pre qs
  ∧ ∀ k, CacheManager.generate_cache_key pre ps = .ok k →
      ∃ d : String, d.length = 8 ∧ k = pre ++ ":" ++ d := by
  have hsort := sortPairs_eq_of_perm ps qs hp hnd
  constructor
  · simp only [CacheManager.generate_cache_key, json_dumps_sorted, hsort]
  · intro k hk
    simp only [CacheManager.generate_cache_key, json_dumps_sorted] at hk
    cases hdi : dumpItems (sortPairs ps) with
    | error e => simp [hdi] at hk
    | ok items =>
      simp only [hdi, Except.ok.injEq] at hk
      refine ⟨String.mk ((hexOfBytes (md5 (utf8Bytes
        ("\x7b" ++ String.intercalate ", " items ++ "\x7d").data))).take 8), ?_, hk.symm⟩
      show ((hexOfBytes (md5 (utf8Bytes
        ("\x7b" ++ String.intercalate ", " items ++ "\x7d").data))).take 8).length = 8
      rw [List.length_take, hexOfBytes_length, md5_length]
      decide

/-- Witness for C8: the sales-key parameter set in two different attribute
orders yields the same key, and the concretely derived week key
`report:sales:32e41cb0` has the prefix/8-hex-digest shape. -/
theorem C8_witness :
    CacheManager.generate_cache_key "report:sales"
        [("period", PyValue.str "semana"), ("start", PyValue.null), ("end", PyValue.null)] =
      CacheManager.generate_cache_key "report:sales"
        [("end", PyValue.null), ("start", PyValue.null), ("period", PyValue.str "semana")]
  ∧ ∃ d : String, d.length = 8 ∧ "report:sales:32e41cb0" = "report:sales" ++ ":" ++ d :=
  ⟨(C8_cache_key_order_independent "report:sales"
      [("period", PyValue.str "semana"), ("start", PyValue.null), ("end", PyValue.null)]
      [("end", PyValue.null), ("start", PyValue.null), ("period", PyValue.str "semana")]
      (by decide) (by decide)).1,
   (C8_cache_key_order_independent "report:sales"
      [("period", PyValue.str "semana"), ("start", PyValue.null), ("end", PyValue.null)]
      [("end", PyValue.null), ("start", PyValue.null), ("period", PyValue.str "semana")]
      (by decide) (by decide)).2 "report:sales:32e41cb0" rfl⟩
